import Mathlib

/-!
Ring buffer allocator of aws-c-common: embedding and verified properties.

Shallow embedding of `source/ring_buffer.c` (with `include/aws/common/ring_buffer.h`).

Modelling conventions.
* A `uint8_t *` is a byte address, a natural number; `NULL` is address `0`.
* `size_t` values are natural numbers.  Every pointer difference the source takes is
  `allocation_end - allocation`, `allocation_end - head`, `tail - allocation` or
  `tail - head - 1` under the guard `tail > head`; whenever
  `allocation ≤ head, tail ≤ allocation_end` none of them is negative, and on every
  success path the pointer sums `head + n` and `allocation + n` stay at or below
  `allocation_end`, so no machine overflow is involved in such states.
* The two atomic cursors are plain fields: every function loads each cursor once and
  stores `head` (or `tail`) at most once, and the development is sequential.
* A function that writes through `ring_buf` and `dest` returns the updated values next
  to its return code.
-/

namespace RingBuffer

/-! ## Data model -/

/-- Error codes raised by the ring buffer functions. -/
inductive aws_error where
  | AWS_ERROR_INVALID_ARGUMENT
  | AWS_ERROR_NO_AVAILABLE_BUFFERS
  deriving DecidableEq, Repr

/-- Return code of an operation: `AWS_OP_SUCCESS`, or `AWS_OP_ERR` together with the error
that `aws_raise_error` recorded. -/
inductive op_status where
  | AWS_OP_SUCCESS
  | AWS_OP_ERR (e : aws_error)
  deriving DecidableEq, Repr

/-- Modelled from the spec: `struct aws_byte_buf` is declared in `aws/common/byte_buf.h`,
which is not part of the sources; the spec describes it as a non-owning view made of a
pointer and a length.  The source reads and writes its members `buffer` and `capacity`;
`len` is the fill level, which a fresh view has at zero. -/
structure aws_byte_buf where
  len : Nat
  buffer : Nat
  capacity : Nat
  deriving DecidableEq, Repr

/-- Modelled from the spec: `aws_byte_buf_from_empty_array` is declared in
`aws/common/byte_buf.h`, which is not part of the sources; it builds the empty view of
`capacity` bytes starting at `bytes`. -/
def aws_byte_buf_from_empty_array (bytes : Nat) (capacity : Nat) : aws_byte_buf :=
  { len := 0, buffer := bytes, capacity := capacity }

/-- The zeroed byte buffer a caller passes as destination (`AWS_ZERO_STRUCT`). -/
def aws_byte_buf_zero : aws_byte_buf :=
  { len := 0, buffer := 0, capacity := 0 }

/-- The `struct aws_ring_buffer` of the header, without the back pointer to the allocator. -/
structure aws_ring_buffer where
  allocation : Nat
  head : Nat
  tail : Nat
  allocation_end : Nat
  deriving DecidableEq, Repr

/-- Result of `aws_raise_error`: the operation returns `AWS_OP_ERR` with the error set. -/
def aws_raise_error (e : aws_error) : op_status :=
  op_status.AWS_OP_ERR e

/-- What an acquire call leaves behind: its return code, the ring buffer and the caller's
destination buffer. -/
structure acquire_result where
  status : op_status
  ring_buf : aws_ring_buffer
  dest : aws_byte_buf
  deriving DecidableEq, Repr

/-! ## Operations -/

/-- Embedding of `aws_ring_buffer_init`.  The argument `mem` is the pointer that
`aws_mem_acquire (allocator, size)` returned (`0` when the allocation failed); the result is
`none` when the function returns `AWS_OP_ERR`. -/
def aws_ring_buffer_init (mem : Nat) (size : Nat) : Option aws_ring_buffer :=
  if mem = 0 then
    none
  else
    some { allocation := mem, head := mem, tail := mem, allocation_end := mem + size + 1 }

/-- Embedding of `aws_ring_buffer_acquire`. -/
def aws_ring_buffer_acquire (ring_buf : aws_ring_buffer) (requested_size : Nat)
    (dest : aws_byte_buf) : acquire_result :=
  if requested_size = 0 then
    ⟨aws_raise_error aws_error.AWS_ERROR_INVALID_ARGUMENT, ring_buf, dest⟩
  else
    let tail_cpy := ring_buf.tail
    let head_cpy := ring_buf.head
    if head_cpy = tail_cpy then
      let ring_space := ring_buf.allocation_end - ring_buf.allocation
      let current_space := ring_buf.allocation_end - head_cpy
      if requested_size > ring_space then
        ⟨aws_raise_error aws_error.AWS_ERROR_NO_AVAILABLE_BUFFERS, ring_buf, dest⟩
      else if current_space ≥ requested_size then
        ⟨op_status.AWS_OP_SUCCESS, { ring_buf with head := head_cpy + requested_size },
          aws_byte_buf_from_empty_array head_cpy requested_size⟩
      else
        ⟨op_status.AWS_OP_SUCCESS,
          { ring_buf with head := ring_buf.allocation + requested_size },
          aws_byte_buf_from_empty_array ring_buf.allocation requested_size⟩
    else if tail_cpy > head_cpy then
      let space := tail_cpy - head_cpy - 1
      if space ≥ requested_size then
        ⟨op_status.AWS_OP_SUCCESS, { ring_buf with head := head_cpy + requested_size },
          aws_byte_buf_from_empty_array head_cpy requested_size⟩
      else
        ⟨aws_raise_error aws_error.AWS_ERROR_NO_AVAILABLE_BUFFERS, ring_buf, dest⟩
    else if tail_cpy < head_cpy then
      if ring_buf.allocation_end - head_cpy > requested_size then
        ⟨op_status.AWS_OP_SUCCESS, { ring_buf with head := head_cpy + requested_size },
          aws_byte_buf_from_empty_array head_cpy requested_size⟩
      else if tail_cpy - ring_buf.allocation > requested_size then
        ⟨op_status.AWS_OP_SUCCESS,
          { ring_buf with head := ring_buf.allocation + requested_size },
          aws_byte_buf_from_empty_array ring_buf.allocation requested_size⟩
      else
        ⟨aws_raise_error aws_error.AWS_ERROR_NO_AVAILABLE_BUFFERS, ring_buf, dest⟩
    else
      ⟨aws_raise_error aws_error.AWS_ERROR_NO_AVAILABLE_BUFFERS, ring_buf, dest⟩

/-- Embedding of `aws_ring_buffer_acquire_up_to`. -/
def aws_ring_buffer_acquire_up_to (ring_buf : aws_ring_buffer) (requested_size : Nat)
    (dest : aws_byte_buf) : acquire_result :=
  if requested_size = 0 then
    ⟨aws_raise_error aws_error.AWS_ERROR_INVALID_ARGUMENT, ring_buf, dest⟩
  else
    let tail_cpy := ring_buf.tail
    let head_cpy := ring_buf.head
    if head_cpy = tail_cpy then
      let ring_space := ring_buf.allocation_end - ring_buf.allocation
      let current_space := ring_buf.allocation_end - head_cpy
      if ring_space = 0 then
        ⟨aws_raise_error aws_error.AWS_ERROR_NO_AVAILABLE_BUFFERS, ring_buf, dest⟩
      else if current_space ≥ requested_size then
        ⟨op_status.AWS_OP_SUCCESS, { ring_buf with head := head_cpy + requested_size },
          aws_byte_buf_from_empty_array head_cpy requested_size⟩
      else if ring_space ≥ requested_size then
        ⟨op_status.AWS_OP_SUCCESS,
          { ring_buf with head := ring_buf.allocation + requested_size },
          aws_byte_buf_from_empty_array ring_buf.allocation requested_size⟩
      else
        ⟨op_status.AWS_OP_SUCCESS,
          { ring_buf with head := ring_buf.allocation + ring_space },
          aws_byte_buf_from_empty_array ring_buf.allocation ring_space⟩
    else if tail_cpy > head_cpy then
      let space := tail_cpy - head_cpy - 1
      let returnable_size := if space > requested_size then requested_size else space
      if space > returnable_size then
        ⟨op_status.AWS_OP_SUCCESS, { ring_buf with head := head_cpy + returnable_size },
          aws_byte_buf_from_empty_array head_cpy returnable_size⟩
      else
        ⟨aws_raise_error aws_error.AWS_ERROR_NO_AVAILABLE_BUFFERS, ring_buf, dest⟩
    else if tail_cpy < head_cpy then
      let head_space := ring_buf.allocation_end - head_cpy
      let tail_space := tail_cpy - ring_buf.allocation
      if head_space = 0 ∧ tail_space ≤ 1 then
        ⟨aws_raise_error aws_error.AWS_ERROR_NO_AVAILABLE_BUFFERS, ring_buf, dest⟩
      else if ring_buf.allocation_end - head_cpy > requested_size then
        ⟨op_status.AWS_OP_SUCCESS, { ring_buf with head := head_cpy + requested_size },
          aws_byte_buf_from_empty_array head_cpy requested_size⟩
      else if tail_cpy - ring_buf.allocation > requested_size then
        ⟨op_status.AWS_OP_SUCCESS,
          { ring_buf with head := ring_buf.allocation + requested_size },
          aws_byte_buf_from_empty_array ring_buf.allocation requested_size⟩
      else if head_space > 1 ∧ head_space > tail_space then
        let returnable_size := head_space - 1
        ⟨op_status.AWS_OP_SUCCESS, { ring_buf with head := head_cpy + returnable_size },
          aws_byte_buf_from_empty_array head_cpy returnable_size⟩
      else if tail_space > 1 then
        let returnable_size := tail_space - 1
        ⟨op_status.AWS_OP_SUCCESS,
          { ring_buf with head := ring_buf.allocation + returnable_size },
          aws_byte_buf_from_empty_array ring_buf.allocation returnable_size⟩
      else
        ⟨aws_raise_error aws_error.AWS_ERROR_NO_AVAILABLE_BUFFERS, ring_buf, dest⟩
    else
      ⟨aws_raise_error aws_error.AWS_ERROR_NO_AVAILABLE_BUFFERS, ring_buf, dest⟩

/-- Embedding of the static helper `s_buf_belongs_to_pool`. -/
def s_buf_belongs_to_pool (ring_buffer : aws_ring_buffer) (buf : aws_byte_buf) : Bool :=
  decide (buf.buffer ≥ ring_buffer.allocation) &&
    decide (buf.buffer + buf.capacity ≤ ring_buffer.allocation_end)

/-- Embedding of `aws_ring_buffer_release`; the debug assertion has no effect on the
state. -/
def aws_ring_buffer_release (ring_buffer : aws_ring_buffer) (buf : aws_byte_buf) :
    aws_ring_buffer :=
  { ring_buffer with tail := buf.buffer + buf.capacity }

/-- Embedding of `aws_ring_buffer_buf_belongs_to_pool`. -/
def aws_ring_buffer_buf_belongs_to_pool (ring_buffer : aws_ring_buffer)
    (buf : aws_byte_buf) : Bool :=
  s_buf_belongs_to_pool ring_buffer buf

/-! ## Sequential use: a caller that releases in acquisition order -/

/-- One call made by a client of the ring buffer.  A release always hands back the oldest
buffer that is still outstanding, which is the FIFO discipline the header requires. -/
inductive ring_op where
  | acquire (requested_size : Nat)
  | acquire_up_to (requested_size : Nat)
  | release
  deriving DecidableEq, Repr

/-- A ring buffer together with the buffers vended and not yet released, oldest first. -/
structure client_state where
  ring_buf : aws_ring_buffer
  outstanding : List aws_byte_buf
  deriving DecidableEq, Repr

/-- Bookkeeping after an acquire call: a vended buffer joins the outstanding queue. -/
def record_acquire (s : client_state) (r : acquire_result) : client_state :=
  match r.status with
  | op_status.AWS_OP_SUCCESS =>
    { ring_buf := r.ring_buf, outstanding := s.outstanding ++ [r.dest] }
  | op_status.AWS_OP_ERR _ => { ring_buf := r.ring_buf, outstanding := s.outstanding }

/-- Effect of one client call. -/
def client_step (s : client_state) : ring_op → client_state
  | ring_op.acquire n =>
    record_acquire s (aws_ring_buffer_acquire s.ring_buf n aws_byte_buf_zero)
  | ring_op.acquire_up_to n =>
    record_acquire s (aws_ring_buffer_acquire_up_to s.ring_buf n aws_byte_buf_zero)
  | ring_op.release =>
    match s.outstanding with
    | [] => s
    | buf :: rest =>
      { ring_buf := aws_ring_buffer_release s.ring_buf buf, outstanding := rest }

/-- Effect of a sequence of client calls, first call first. -/
def client_run (s : client_state) (ops : List ring_op) : client_state :=
  ops.foldl client_step s

/-- The client state right after a successful `aws_ring_buffer_init`. -/
def client_init (mem : Nat) (size : Nat) : Option client_state :=
  (aws_ring_buffer_init mem size).map fun rb => { ring_buf := rb, outstanding := [] }

/-- Two byte buffers share at least one byte. -/
def bufs_overlap (a b : aws_byte_buf) : Bool :=
  decide (a.buffer < b.buffer + b.capacity) && decide (b.buffer < a.buffer + a.capacity)

/-- Sum of the capacities of a list of buffers. -/
def total_capacity (bufs : List aws_byte_buf) : Nat :=
  (bufs.map fun b => b.capacity).sum

/-- The cursors lie inside the region: `allocation ≤ head, tail ≤ allocation_end`. -/
def cursors_in_bounds (rb : aws_ring_buffer) : Prop :=
  rb.allocation ≤ rb.head ∧ rb.head ≤ rb.allocation_end ∧
    rb.allocation ≤ rb.tail ∧ rb.tail ≤ rb.allocation_end

instance (rb : aws_ring_buffer) : Decidable (cursors_in_bounds rb) := by
  unfold cursors_in_bounds; infer_instance

/-- What each acquire call of a sequence of client calls returned, in call order: the
return code and the destination buffer after the call. -/
def client_log (s : client_state) : List ring_op → List (op_status × aws_byte_buf)
  | [] => []
  | ring_op.acquire n :: ops =>
    ((aws_ring_buffer_acquire s.ring_buf n aws_byte_buf_zero).status,
        (aws_ring_buffer_acquire s.ring_buf n aws_byte_buf_zero).dest)
      :: client_log (client_step s (ring_op.acquire n)) ops
  | ring_op.acquire_up_to n :: ops =>
    ((aws_ring_buffer_acquire_up_to s.ring_buf n aws_byte_buf_zero).status,
        (aws_ring_buffer_acquire_up_to s.ring_buf n aws_byte_buf_zero).dest)
      :: client_log (client_step s (ring_op.acquire_up_to n)) ops
  | ring_op.release :: ops => client_log (client_step s ring_op.release) ops

/-- States of the ring buffer that `aws_ring_buffer_init` for `size` bytes at address `mem`
can be brought to by calls of the two acquire functions, whatever they return, and by
releases of buffers for which `s_buf_belongs_to_pool` holds (the assertion in
`aws_ring_buffer_release`); the released buffers need not come in acquisition order. -/
inductive reachable_from_init (mem size : Nat) : aws_ring_buffer → Prop where
  | init (rb : aws_ring_buffer) (h : aws_ring_buffer_init mem size = some rb) :
      reachable_from_init mem size rb
  | acquire (rb : aws_ring_buffer) (n : Nat) (dest : aws_byte_buf)
      (h : reachable_from_init mem size rb) :
      reachable_from_init mem size (aws_ring_buffer_acquire rb n dest).ring_buf
  | acquire_up_to (rb : aws_ring_buffer) (n : Nat) (dest : aws_byte_buf)
      (h : reachable_from_init mem size rb) :
      reachable_from_init mem size (aws_ring_buffer_acquire_up_to rb n dest).ring_buf
  | release (rb : aws_ring_buffer) (buf : aws_byte_buf)
      (h : reachable_from_init mem size rb) (hp : s_buf_belongs_to_pool rb buf = true) :
      reachable_from_init mem size (aws_ring_buffer_release rb buf)

/-- The multi-wrap policy of `acquire` as the specification words it, for a state with
`tail < head`: the head-side span is `[head, region_end)`, the tail-side span is
`[region_start, tail - 1)`; vend at `head` if the head-side length strictly exceeds the
requested size, otherwise vend at `region_start` if the tail-side length strictly exceeds
it, otherwise fail. -/
def spec_multi_wrap_acquire (ring_buf : aws_ring_buffer) (requested_size : Nat)
    (dest : aws_byte_buf) : acquire_result :=
  let head_span_length := ring_buf.allocation_end - ring_buf.head
  let tail_span_length := ring_buf.tail - ring_buf.allocation - 1
  if head_span_length > requested_size then
    ⟨op_status.AWS_OP_SUCCESS, { ring_buf with head := ring_buf.head + requested_size },
      aws_byte_buf_from_empty_array ring_buf.head requested_size⟩
  else if tail_span_length > requested_size then
    ⟨op_status.AWS_OP_SUCCESS,
      { ring_buf with head := ring_buf.allocation + requested_size },
      aws_byte_buf_from_empty_array ring_buf.allocation requested_size⟩
  else
    ⟨op_status.AWS_OP_ERR aws_error.AWS_ERROR_NO_AVAILABLE_BUFFERS, ring_buf, dest⟩

/-- The three cases that both acquire functions tell apart, from the live values of the
cursors: no buffer vended (`head == tail`), `tail > head`, and `tail < head`. -/
inductive ring_state where
  | EMPTY
  | SINGLE_WRAP
  | MULTI_WRAP
  deriving DecidableEq, Repr

/-- The case a ring buffer is in, decided in the order of the source's branches:
`head == tail`, then `tail > head`, then `tail < head`. -/
def ring_state_of (ring_buf : aws_ring_buffer) : ring_state :=
  if ring_buf.head = ring_buf.tail then ring_state.EMPTY
  else if ring_buf.tail > ring_buf.head then ring_state.SINGLE_WRAP
  else ring_state.MULTI_WRAP

/-! ## Case analysis of the two acquire functions -/

/-- Every call of `aws_ring_buffer_acquire` takes exactly one of the source's return
statements; each alternative pairs the branch conditions with the value returned there. -/
theorem acquire_cases (rb : aws_ring_buffer) (n : Nat) (dest : aws_byte_buf) :
    (n = 0 ∧ aws_ring_buffer_acquire rb n dest
        = ⟨op_status.AWS_OP_ERR aws_error.AWS_ERROR_INVALID_ARGUMENT, rb, dest⟩) ∨
    ((n ≠ 0 ∧ rb.head = rb.tail ∧ n > rb.allocation_end - rb.allocation) ∧
      aws_ring_buffer_acquire rb n dest
        = ⟨op_status.AWS_OP_ERR aws_error.AWS_ERROR_NO_AVAILABLE_BUFFERS, rb, dest⟩) ∨
    ((n ≠ 0 ∧ rb.head = rb.tail ∧ n ≤ rb.allocation_end - rb.allocation ∧
      rb.allocation_end - rb.head ≥ n) ∧
      aws_ring_buffer_acquire rb n dest
        = ⟨op_status.AWS_OP_SUCCESS, { rb with head := rb.head + n }, ⟨0, rb.head, n⟩⟩) ∨
    ((n ≠ 0 ∧ rb.head = rb.tail ∧ n ≤ rb.allocation_end - rb.allocation ∧
      rb.allocation_end - rb.head < n) ∧
      aws_ring_buffer_acquire rb n dest
        = ⟨op_status.AWS_OP_SUCCESS, { rb with head := rb.allocation + n },
            ⟨0, rb.allocation, n⟩⟩) ∨
    ((n ≠ 0 ∧ rb.head < rb.tail ∧ rb.tail - rb.head - 1 ≥ n) ∧
      aws_ring_buffer_acquire rb n dest
        = ⟨op_status.AWS_OP_SUCCESS, { rb with head := rb.head + n }, ⟨0, rb.head, n⟩⟩) ∨
    ((n ≠ 0 ∧ rb.head < rb.tail ∧ rb.tail - rb.head - 1 < n) ∧
      aws_ring_buffer_acquire rb n dest
        = ⟨op_status.AWS_OP_ERR aws_error.AWS_ERROR_NO_AVAILABLE_BUFFERS, rb, dest⟩) ∨
    ((n ≠ 0 ∧ rb.tail < rb.head ∧ rb.allocation_end - rb.head > n) ∧
      aws_ring_buffer_acquire rb n dest
        = ⟨op_status.AWS_OP_SUCCESS, { rb with head := rb.head + n }, ⟨0, rb.head, n⟩⟩) ∨
    ((n ≠ 0 ∧ rb.tail < rb.head ∧ rb.allocation_end - rb.head ≤ n ∧
      rb.tail - rb.allocation > n) ∧
      aws_ring_buffer_acquire rb n dest
        = ⟨op_status.AWS_OP_SUCCESS, { rb with head := rb.allocation + n },
            ⟨0, rb.allocation, n⟩⟩) ∨
    ((n ≠ 0 ∧ rb.tail < rb.head ∧ rb.allocation_end - rb.head ≤ n ∧
      rb.tail - rb.allocation ≤ n) ∧
      aws_ring_buffer_acquire rb n dest
        = ⟨op_status.AWS_OP_ERR aws_error.AWS_ERROR_NO_AVAILABLE_BUFFERS, rb, dest⟩) := by
  by_cases h0 : n = 0
  · exact Or.inl ⟨h0, by simp only [aws_ring_buffer_acquire, if_pos h0, aws_raise_error]⟩
  right
  by_cases h1 : rb.head = rb.tail
  · by_cases h2 : n > rb.allocation_end - rb.allocation
    · exact Or.inl ⟨⟨h0, h1, h2⟩, by
        simp only [aws_ring_buffer_acquire, if_neg h0, if_pos h1, if_pos h2, aws_raise_error]⟩
    right
    by_cases h3 : rb.allocation_end - rb.head ≥ n
    · exact Or.inl ⟨⟨h0, h1, Nat.not_lt.mp h2, h3⟩, by
        simp only [aws_ring_buffer_acquire, if_neg h0, if_pos h1, if_neg h2, if_pos h3,
          aws_byte_buf_from_empty_array]⟩
    · exact Or.inr (Or.inl ⟨⟨h0, h1, Nat.not_lt.mp h2, Nat.not_le.mp h3⟩, by
        simp only [aws_ring_buffer_acquire, if_neg h0, if_pos h1, if_neg h2, if_neg h3,
          aws_byte_buf_from_empty_array]⟩)
  right; right; right
  by_cases h4 : rb.tail > rb.head
  · by_cases h5 : rb.tail - rb.head - 1 ≥ n
    · exact Or.inl ⟨⟨h0, h4, h5⟩, by
        simp only [aws_ring_buffer_acquire, if_neg h0, if_neg h1, if_pos h4, if_pos h5,
          aws_byte_buf_from_empty_array]⟩
    · exact Or.inr (Or.inl ⟨⟨h0, h4, Nat.not_le.mp h5⟩, by
        simp only [aws_ring_buffer_acquire, if_neg h0, if_neg h1, if_pos h4, if_neg h5,
          aws_raise_error]⟩)
  right; right
  have h6 : rb.tail < rb.head := by omega
  by_cases h7 : rb.allocation_end - rb.head > n
  · exact Or.inl ⟨⟨h0, h6, h7⟩, by
      simp only [aws_ring_buffer_acquire, if_neg h0, if_neg h1, if_neg h4, if_pos h6,
        if_pos h7, aws_byte_buf_from_empty_array]⟩
  right
  by_cases h8 : rb.tail - rb.allocation > n
  · exact Or.inl ⟨⟨h0, h6, Nat.not_lt.mp h7, h8⟩, by
      simp only [aws_ring_buffer_acquire, if_neg h0, if_neg h1, if_neg h4, if_pos h6,
        if_neg h7, if_pos h8, aws_byte_buf_from_empty_array]⟩
  · exact Or.inr ⟨⟨h0, h6, Nat.not_lt.mp h7, Nat.not_lt.mp h8⟩, by
      simp only [aws_ring_buffer_acquire, if_neg h0, if_neg h1, if_neg h4, if_pos h6,
        if_neg h7, if_neg h8, aws_raise_error]⟩

/-- Every call of `aws_ring_buffer_acquire_up_to` takes exactly one of the source's return
statements; each alternative pairs the branch conditions with the value returned there. -/
theorem acquire_up_to_cases (rb : aws_ring_buffer) (n : Nat) (dest : aws_byte_buf) :
    (n = 0 ∧ aws_ring_buffer_acquire_up_to rb n dest
        = ⟨op_status.AWS_OP_ERR aws_error.AWS_ERROR_INVALID_ARGUMENT, rb, dest⟩) ∨
    ((n ≠ 0 ∧ rb.head = rb.tail ∧ rb.allocation_end - rb.allocation = 0) ∧
      aws_ring_buffer_acquire_up_to rb n dest
        = ⟨op_status.AWS_OP_ERR aws_error.AWS_ERROR_NO_AVAILABLE_BUFFERS, rb, dest⟩) ∨
    ((n ≠ 0 ∧ rb.head = rb.tail ∧ rb.allocation_end - rb.allocation ≠ 0 ∧
      rb.allocation_end - rb.head ≥ n) ∧
      aws_ring_buffer_acquire_up_to rb n dest
        = ⟨op_status.AWS_OP_SUCCESS, { rb with head := rb.head + n }, ⟨0, rb.head, n⟩⟩) ∨
    ((n ≠ 0 ∧ rb.head = rb.tail ∧ rb.allocation_end - rb.allocation ≠ 0 ∧
      rb.allocation_end - rb.head < n ∧ rb.allocation_end - rb.allocation ≥ n) ∧
      aws_ring_buffer_acquire_up_to rb n dest
        = ⟨op_status.AWS_OP_SUCCESS, { rb with head := rb.allocation + n },
            ⟨0, rb.allocation, n⟩⟩) ∨
    ((n ≠ 0 ∧ rb.head = rb.tail ∧ rb.allocation_end - rb.allocation ≠ 0 ∧
      rb.allocation_end - rb.head < n ∧ rb.allocation_end - rb.allocation < n) ∧
      aws_ring_buffer_acquire_up_to rb n dest
        = ⟨op_status.AWS_OP_SUCCESS,
            { rb with head := rb.allocation + (rb.allocation_end - rb.allocation) },
            ⟨0, rb.allocation, rb.allocation_end - rb.allocation⟩⟩) ∨
    ((n ≠ 0 ∧ rb.head < rb.tail ∧ rb.tail - rb.head - 1 > n) ∧
      aws_ring_buffer_acquire_up_to rb n dest
        = ⟨op_status.AWS_OP_SUCCESS, { rb with head := rb.head + n }, ⟨0, rb.head, n⟩⟩) ∨
    ((n ≠ 0 ∧ rb.head < rb.tail ∧ rb.tail - rb.head - 1 ≤ n) ∧
      aws_ring_buffer_acquire_up_to rb n dest
        = ⟨op_status.AWS_OP_ERR aws_error.AWS_ERROR_NO_AVAILABLE_BUFFERS, rb, dest⟩) ∨
    ((n ≠ 0 ∧ rb.tail < rb.head ∧
      (rb.allocation_end - rb.head = 0 ∧ rb.tail - rb.allocation ≤ 1)) ∧
      aws_ring_buffer_acquire_up_to rb n dest
        = ⟨op_status.AWS_OP_ERR aws_error.AWS_ERROR_NO_AVAILABLE_BUFFERS, rb, dest⟩) ∨
    ((n ≠ 0 ∧ rb.tail < rb.head ∧
      ¬ (rb.allocation_end - rb.head = 0 ∧ rb.tail - rb.allocation ≤ 1) ∧
      rb.allocation_end - rb.head > n) ∧
      aws_ring_buffer_acquire_up_to rb n dest
        = ⟨op_status.AWS_OP_SUCCESS, { rb with head := rb.head + n }, ⟨0, rb.head, n⟩⟩) ∨
    ((n ≠ 0 ∧ rb.tail < rb.head ∧
      ¬ (rb.allocation_end - rb.head = 0 ∧ rb.tail - rb.allocation ≤ 1) ∧
      rb.allocation_end - rb.head ≤ n ∧ rb.tail - rb.allocation > n) ∧
      aws_ring_buffer_acquire_up_to rb n dest
        = ⟨op_status.AWS_OP_SUCCESS, { rb with head := rb.allocation + n },
            ⟨0, rb.allocation, n⟩⟩) ∨
    ((n ≠ 0 ∧ rb.tail < rb.head ∧
      ¬ (rb.allocation_end - rb.head = 0 ∧ rb.tail - rb.allocation ≤ 1) ∧
      rb.allocation_end - rb.head ≤ n ∧ rb.tail - rb.allocation ≤ n ∧
      (rb.allocation_end - rb.head > 1 ∧
        rb.allocation_end - rb.head > rb.tail - rb.allocation)) ∧
      aws_ring_buffer_acquire_up_to rb n dest
        = ⟨op_status.AWS_OP_SUCCESS,
            { rb with head := rb.head + (rb.allocation_end - rb.head - 1) },
            ⟨0, rb.head, rb.allocation_end - rb.head - 1⟩⟩) ∨
    ((n ≠ 0 ∧ rb.tail < rb.head ∧
      ¬ (rb.allocation_end - rb.head = 0 ∧ rb.tail - rb.allocation ≤ 1) ∧
      rb.allocation_end - rb.head ≤ n ∧ rb.tail - rb.allocation ≤ n ∧
      ¬ (rb.allocation_end - rb.head > 1 ∧
        rb.allocation_end - rb.head > rb.tail - rb.allocation) ∧
      rb.tail - rb.allocation > 1) ∧
      aws_ring_buffer_acquire_up_to rb n dest
        = ⟨op_status.AWS_OP_SUCCESS,
            { rb with head := rb.allocation + (rb.tail - rb.allocation - 1) },
            ⟨0, rb.allocation, rb.tail - rb.allocation - 1⟩⟩) ∨
    ((n ≠ 0 ∧ rb.tail < rb.head ∧
      ¬ (rb.allocation_end - rb.head = 0 ∧ rb.tail - rb.allocation ≤ 1) ∧
      rb.allocation_end - rb.head ≤ n ∧ rb.tail - rb.allocation ≤ n ∧
      ¬ (rb.allocation_end - rb.head > 1 ∧
        rb.allocation_end - rb.head > rb.tail - rb.allocation) ∧
      rb.tail - rb.allocation ≤ 1) ∧
      aws_ring_buffer_acquire_up_to rb n dest
        = ⟨op_status.AWS_OP_ERR aws_error.AWS_ERROR_NO_AVAILABLE_BUFFERS, rb, dest⟩) := by
  by_cases h0 : n = 0
  · exact Or.inl ⟨h0, by simp only [aws_ring_buffer_acquire_up_to, if_pos h0, aws_raise_error]⟩
  right
  by_cases h1 : rb.head = rb.tail
  · by_cases h2 : rb.allocation_end - rb.allocation = 0
    · exact Or.inl ⟨⟨h0, h1, h2⟩, by
        simp only [aws_ring_buffer_acquire_up_to, if_neg h0, if_pos h1, if_pos h2,
          aws_raise_error]⟩
    right
    by_cases h3 : rb.allocation_end - rb.head ≥ n
    · exact Or.inl ⟨⟨h0, h1, h2, h3⟩, by
        simp only [aws_ring_buffer_acquire_up_to, if_neg h0, if_pos h1, if_neg h2, if_pos h3,
          aws_byte_buf_from_empty_array]⟩
    right
    by_cases h4 : rb.allocation_end - rb.allocation ≥ n
    · exact Or.inl ⟨⟨h0, h1, h2, Nat.not_le.mp h3, h4⟩, by
        simp only [aws_ring_buffer_acquire_up_to, if_neg h0, if_pos h1, if_neg h2, if_neg h3,
          if_pos h4, aws_byte_buf_from_empty_array]⟩
    · exact Or.inr (Or.inl ⟨⟨h0, h1, h2, Nat.not_le.mp h3, Nat.not_le.mp h4⟩, by
        simp only [aws_ring_buffer_acquire_up_to, if_neg h0, if_pos h1, if_neg h2, if_neg h3,
          if_neg h4, aws_byte_buf_from_empty_array]⟩)
  right; right; right; right
  by_cases h5 : rb.tail > rb.head
  · by_cases h6 : rb.tail - rb.head - 1 > n
    · exact Or.inl ⟨⟨h0, h5, h6⟩, by
        simp only [aws_ring_buffer_acquire_up_to, if_neg h0, if_neg h1, if_pos h5, if_pos h6,
          aws_byte_buf_from_empty_array]⟩
    · exact Or.inr (Or.inl ⟨⟨h0, h5, Nat.not_lt.mp h6⟩, by
        simp only [aws_ring_buffer_acquire_up_to, if_neg h0, if_neg h1, if_pos h5, if_neg h6,
          gt_iff_lt, lt_self_iff_false, if_false, aws_raise_error]⟩)
  right; right
  have h7 : rb.tail < rb.head := by omega
  by_cases h8 : rb.allocation_end - rb.head = 0 ∧ rb.tail - rb.allocation ≤ 1
  · exact Or.inl ⟨⟨h0, h7, h8⟩, by
      simp only [aws_ring_buffer_acquire_up_to, if_neg h0, if_neg h1, if_neg h5, if_pos h7,
        if_pos h8, aws_raise_error]⟩
  right
  by_cases h9 : rb.allocation_end - rb.head > n
  · exact Or.inl ⟨⟨h0, h7, h8, h9⟩, by
      simp only [aws_ring_buffer_acquire_up_to, if_neg h0, if_neg h1, if_neg h5, if_pos h7,
        if_neg h8, if_pos h9, aws_byte_buf_from_empty_array]⟩
  right
  by_cases h10 : rb.tail - rb.allocation > n
  · exact Or.inl ⟨⟨h0, h7, h8, Nat.not_lt.mp h9, h10⟩, by
      simp only [aws_ring_buffer_acquire_up_to, if_neg h0, if_neg h1, if_neg h5, if_pos h7,
        if_neg h8, if_neg h9, if_pos h10, aws_byte_buf_from_empty_array]⟩
  right
  by_cases h11 : rb.allocation_end - rb.head > 1 ∧
      rb.allocation_end - rb.head > rb.tail - rb.allocation
  · exact Or.inl ⟨⟨h0, h7, h8, Nat.not_lt.mp h9, Nat.not_lt.mp h10, h11⟩, by
      simp only [aws_ring_buffer_acquire_up_to, if_neg h0, if_neg h1, if_neg h5, if_pos h7,
        if_neg h8, if_neg h9, if_neg h10, if_pos h11, aws_byte_buf_from_empty_array]⟩
  right
  by_cases h12 : rb.tail - rb.allocation > 1
  · exact Or.inl ⟨⟨h0, h7, h8, Nat.not_lt.mp h9, Nat.not_lt.mp h10, h11, h12⟩, by
      simp only [aws_ring_buffer_acquire_up_to, if_neg h0, if_neg h1, if_neg h5, if_pos h7,
        if_neg h8, if_neg h9, if_neg h10, if_neg h11, if_pos h12,
        aws_byte_buf_from_empty_array]⟩
  · exact Or.inr ⟨⟨h0, h7, h8, Nat.not_lt.mp h9, Nat.not_lt.mp h10, h11, Nat.not_lt.mp h12⟩, by
      simp only [aws_ring_buffer_acquire_up_to, if_neg h0, if_neg h1, if_neg h5, if_pos h7,
        if_neg h8, if_neg h9, if_neg h10, if_neg h11, if_neg h12, aws_raise_error]⟩

/-! ## Properties that hold in every state -/

/-- C3: in every allocator state, whatever the cursors and the bounds, a request for zero
bytes makes both `aws_ring_buffer_acquire` and `aws_ring_buffer_acquire_up_to` fail with
`AWS_ERROR_INVALID_ARGUMENT`, and neither call changes `head` or `tail`. -/
theorem zero_size_request_is_invalid_argument (ring_buf : aws_ring_buffer)
    (dest : aws_byte_buf) :
    ((aws_ring_buffer_acquire ring_buf 0 dest).status
        = op_status.AWS_OP_ERR aws_error.AWS_ERROR_INVALID_ARGUMENT ∧
      (aws_ring_buffer_acquire ring_buf 0 dest).ring_buf.head = ring_buf.head ∧
      (aws_ring_buffer_acquire ring_buf 0 dest).ring_buf.tail = ring_buf.tail) ∧
    ((aws_ring_buffer_acquire_up_to ring_buf 0 dest).status
        = op_status.AWS_OP_ERR aws_error.AWS_ERROR_INVALID_ARGUMENT ∧
      (aws_ring_buffer_acquire_up_to ring_buf 0 dest).ring_buf.head = ring_buf.head ∧
      (aws_ring_buffer_acquire_up_to ring_buf 0 dest).ring_buf.tail = ring_buf.tail) := by
  simp [aws_ring_buffer_acquire, aws_ring_buffer_acquire_up_to, aws_raise_error]

/-- C7: in every state with `allocation ≤ head, tail ≤ allocation_end` and for every
requested size of at least one byte, a successful `aws_ring_buffer_acquire_up_to` returns a
buffer whose capacity is at least one and at most the requested size. -/
theorem acquire_up_to_capacity_bounds (ring_buf : aws_ring_buffer) (requested_size : Nat)
    (dest : aws_byte_buf) (_hb : cursors_in_bounds ring_buf) (_hn : 1 ≤ requested_size)
    (hs : (aws_ring_buffer_acquire_up_to ring_buf requested_size dest).status
      = op_status.AWS_OP_SUCCESS) :
    1 ≤ (aws_ring_buffer_acquire_up_to ring_buf requested_size dest).dest.capacity ∧
      (aws_ring_buffer_acquire_up_to ring_buf requested_size dest).dest.capacity
        ≤ requested_size := by
  rcases acquire_up_to_cases ring_buf requested_size dest with
    ⟨hc, hr⟩ | ⟨hc, hr⟩ | ⟨hc, hr⟩ | ⟨hc, hr⟩ | ⟨hc, hr⟩ | ⟨hc, hr⟩ | ⟨hc, hr⟩ | ⟨hc, hr⟩ |
    ⟨hc, hr⟩ | ⟨hc, hr⟩ | ⟨hc, hr⟩ | ⟨hc, hr⟩ | ⟨hc, hr⟩
  all_goals rw [hr] at hs ⊢
  all_goals first
    | (dsimp only; omega)
    | simp only [reduceCtorEq] at hs

/-- Witness for C7: with 12 bytes outstanding at the start of a 16-byte ring buffer, a
request for up to 8 bytes is granted 4 bytes. -/
theorem acquire_up_to_capacity_bounds_witness :
    cursors_in_bounds ⟨1000, 1012, 1000, 1017⟩ ∧
    (aws_ring_buffer_acquire_up_to ⟨1000, 1012, 1000, 1017⟩ 8 aws_byte_buf_zero).dest.capacity
      = 4 ∧
    (1 ≤ (aws_ring_buffer_acquire_up_to ⟨1000, 1012, 1000, 1017⟩ 8
        aws_byte_buf_zero).dest.capacity ∧
      (aws_ring_buffer_acquire_up_to ⟨1000, 1012, 1000, 1017⟩ 8
        aws_byte_buf_zero).dest.capacity ≤ 8) :=
  ⟨by decide, by decide,
    acquire_up_to_capacity_bounds ⟨1000, 1012, 1000, 1017⟩ 8 aws_byte_buf_zero
      (by decide) (by decide) (by decide)⟩

/-- C8: `aws_ring_buffer_acquire` never partially satisfies a request.  In every state and
for every requested size of at least one byte, the call either succeeds with a buffer of
exactly the requested capacity and leaves `head` at the end of that buffer, or it fails with
`AWS_ERROR_NO_AVAILABLE_BUFFERS`. -/
theorem acquire_is_exact_or_no_buffers (ring_buf : aws_ring_buffer) (requested_size : Nat)
    (dest : aws_byte_buf) (hn : 1 ≤ requested_size) :
    ((aws_ring_buffer_acquire ring_buf requested_size dest).status
        = op_status.AWS_OP_SUCCESS ∧
      (aws_ring_buffer_acquire ring_buf requested_size dest).dest.capacity
        = requested_size ∧
      (aws_ring_buffer_acquire ring_buf requested_size dest).ring_buf.head
        = (aws_ring_buffer_acquire ring_buf requested_size dest).dest.buffer
          + requested_size) ∨
    (aws_ring_buffer_acquire ring_buf requested_size dest).status
      = op_status.AWS_OP_ERR aws_error.AWS_ERROR_NO_AVAILABLE_BUFFERS := by
  rcases acquire_cases ring_buf requested_size dest with
    ⟨hc, hr⟩ | ⟨hc, hr⟩ | ⟨hc, hr⟩ | ⟨hc, hr⟩ | ⟨hc, hr⟩ | ⟨hc, hr⟩ | ⟨hc, hr⟩ | ⟨hc, hr⟩ |
    ⟨hc, hr⟩
  all_goals rw [hr]
  all_goals first
    | exact absurd hc (by omega)
    | exact Or.inr rfl
    | exact Or.inl ⟨rfl, rfl, rfl⟩

/-- Witness for C8: on a fresh 16-byte ring buffer a request for 4 bytes is met exactly. -/
theorem acquire_is_exact_or_no_buffers_witness :
    (1 ≤ 4) ∧
    (((aws_ring_buffer_acquire ⟨1000, 1000, 1000, 1017⟩ 4 aws_byte_buf_zero).status
        = op_status.AWS_OP_SUCCESS ∧
      (aws_ring_buffer_acquire ⟨1000, 1000, 1000, 1017⟩ 4 aws_byte_buf_zero).dest.capacity
        = 4 ∧
      (aws_ring_buffer_acquire ⟨1000, 1000, 1000, 1017⟩ 4 aws_byte_buf_zero).ring_buf.head
        = (aws_ring_buffer_acquire ⟨1000, 1000, 1000, 1017⟩ 4 aws_byte_buf_zero).dest.buffer
          + 4) ∨
    (aws_ring_buffer_acquire ⟨1000, 1000, 1000, 1017⟩ 4 aws_byte_buf_zero).status
      = op_status.AWS_OP_ERR aws_error.AWS_ERROR_NO_AVAILABLE_BUFFERS) :=
  ⟨by decide,
    acquire_is_exact_or_no_buffers ⟨1000, 1000, 1000, 1017⟩ 4 aws_byte_buf_zero (by decide)⟩

/-- C10: every buffer vended belongs to the pool.  In every state with
`allocation ≤ head, tail ≤ allocation_end` and for every requested size of at least one
byte, a successful `aws_ring_buffer_acquire` or `aws_ring_buffer_acquire_up_to` returns a
buffer for which `aws_ring_buffer_buf_belongs_to_pool` is true. -/
theorem vended_buffer_belongs_to_pool (ring_buf : aws_ring_buffer) (requested_size : Nat)
    (dest : aws_byte_buf) (hb : cursors_in_bounds ring_buf) (_hn : 1 ≤ requested_size) :
    ((aws_ring_buffer_acquire ring_buf requested_size dest).status
        = op_status.AWS_OP_SUCCESS →
      aws_ring_buffer_buf_belongs_to_pool
        (aws_ring_buffer_acquire ring_buf requested_size dest).ring_buf
        (aws_ring_buffer_acquire ring_buf requested_size dest).dest = true) ∧
    ((aws_ring_buffer_acquire_up_to ring_buf requested_size dest).status
        = op_status.AWS_OP_SUCCESS →
      aws_ring_buffer_buf_belongs_to_pool
        (aws_ring_buffer_acquire_up_to ring_buf requested_size dest).ring_buf
        (aws_ring_buffer_acquire_up_to ring_buf requested_size dest).dest = true) := by
  obtain ⟨h1, h2, h3, h4⟩ := hb
  simp only [aws_ring_buffer_buf_belongs_to_pool, s_buf_belongs_to_pool, Bool.and_eq_true,
    decide_eq_true_eq]
  constructor
  · intro hs
    rcases acquire_cases ring_buf requested_size dest with
      ⟨hc, hr⟩ | ⟨hc, hr⟩ | ⟨hc, hr⟩ | ⟨hc, hr⟩ | ⟨hc, hr⟩ | ⟨hc, hr⟩ | ⟨hc, hr⟩ | ⟨hc, hr⟩ |
      ⟨hc, hr⟩
    all_goals rw [hr] at hs ⊢
    all_goals first
      | (dsimp only; omega)
      | simp only [reduceCtorEq] at hs
  · intro hs
    rcases acquire_up_to_cases ring_buf requested_size dest with
      ⟨hc, hr⟩ | ⟨hc, hr⟩ | ⟨hc, hr⟩ | ⟨hc, hr⟩ | ⟨hc, hr⟩ | ⟨hc, hr⟩ | ⟨hc, hr⟩ | ⟨hc, hr⟩ |
      ⟨hc, hr⟩ | ⟨hc, hr⟩ | ⟨hc, hr⟩ | ⟨hc, hr⟩ | ⟨hc, hr⟩
    all_goals rw [hr] at hs ⊢
    all_goals first
      | (dsimp only; omega)
      | simp only [reduceCtorEq] at hs

/-- Witness for C10: the state of the header's test after 12 bytes were vended; the next
4 bytes lie in the pool, whichever of the two functions vends them. -/
theorem vended_buffer_belongs_to_pool_witness :
    cursors_in_bounds ⟨1000, 1012, 1000, 1017⟩ ∧
    (aws_ring_buffer_acquire ⟨1000, 1012, 1000, 1017⟩ 4 aws_byte_buf_zero).status
      = op_status.AWS_OP_SUCCESS ∧
    ((aws_ring_buffer_acquire ⟨1000, 1012, 1000, 1017⟩ 4 aws_byte_buf_zero).status
        = op_status.AWS_OP_SUCCESS →
      aws_ring_buffer_buf_belongs_to_pool
        (aws_ring_buffer_acquire ⟨1000, 1012, 1000, 1017⟩ 4 aws_byte_buf_zero).ring_buf
        (aws_ring_buffer_acquire ⟨1000, 1012, 1000, 1017⟩ 4 aws_byte_buf_zero).dest = true) ∧
    ((aws_ring_buffer_acquire_up_to ⟨1000, 1012, 1000, 1017⟩ 4 aws_byte_buf_zero).status
        = op_status.AWS_OP_SUCCESS →
      aws_ring_buffer_buf_belongs_to_pool
        (aws_ring_buffer_acquire_up_to ⟨1000, 1012, 1000, 1017⟩ 4 aws_byte_buf_zero).ring_buf
        (aws_ring_buffer_acquire_up_to ⟨1000, 1012, 1000, 1017⟩ 4 aws_byte_buf_zero).dest
          = true) :=
  ⟨by decide, by decide,
    vended_buffer_belongs_to_pool ⟨1000, 1012, 1000, 1017⟩ 4 aws_byte_buf_zero
      (by decide) (by decide)⟩

/-! ## Where the code departs from its contract

Each theorem below evaluates the embedding on a run that a client of a 16-byte ring buffer
can make (the backing allocation is at address 1000, so the bytes handed to the ring
buffer are 1000 to 1015 and `allocation_end` is 1017). -/

/-- C1 fails on the code: after `acquire 4`, its release, `acquire 14` (vended at the
start of the region because only 13 bytes are left ahead of `head`) and `acquire 3`, the
14-byte buffer and the 3-byte buffer are both outstanding and both start at the first byte
of the region, so they overlap.  The wrap taken in the branch `head == tail` leaves `tail`
inside the buffer it vends. -/
theorem overlapping_buffers_after_wrap_from_empty :
    (client_init 1000 16).map (fun s =>
        (client_run s [ring_op.acquire 4, ring_op.release, ring_op.acquire 14,
          ring_op.acquire 3]).outstanding)
      = some [⟨0, 1000, 14⟩, ⟨0, 1000, 3⟩] ∧
    bufs_overlap ⟨0, 1000, 14⟩ ⟨0, 1000, 3⟩ = true := by
  decide

/-- C2 fails on the code: on the ring buffer that `aws_ring_buffer_init` builds for 16
bytes, `aws_ring_buffer_acquire` of 17 bytes succeeds and vends 17 bytes, because
`allocation_end` was set one byte past the end of the allocation. -/
theorem acquire_above_capacity_succeeds_when_fresh :
    aws_ring_buffer_init 1000 16 = some ⟨1000, 1000, 1000, 1017⟩ ∧
    aws_ring_buffer_acquire ⟨1000, 1000, 1000, 1017⟩ 17 aws_byte_buf_zero
      = ⟨op_status.AWS_OP_SUCCESS, ⟨1000, 1017, 1000, 1017⟩, ⟨0, 1000, 17⟩⟩ := by
  decide

/-- C4 fails on the code: on a 16-byte ring buffer a single `acquire 17` leaves 17 bytes
outstanding before any wrap, and `acquire 4`, its release and `acquire 16` (which wraps to
the start of the region) leave 16 bytes outstanding after a wrap. -/
theorem outstanding_bytes_exceed_capacity :
    (client_init 1000 16).map (fun s =>
        total_capacity (client_run s [ring_op.acquire 17]).outstanding) = some 17 ∧
    (client_init 1000 16).map (fun s =>
        (client_run s [ring_op.acquire 4, ring_op.release, ring_op.acquire 16]).outstanding)
      = some [⟨0, 1000, 16⟩] ∧
    total_capacity [⟨0, 1000, 16⟩] = 16 := by
  decide

/-- C5 fails on the code: the run of the test `s_test_acquire_up_to` reaches `head` at
offset 8 and `tail` at offset 16, where 7 bytes are free ahead of `head`; the test expects
`acquire_up_to 8` to vend those 7 bytes, and the code returns
`AWS_ERROR_NO_AVAILABLE_BUFFERS`. -/
theorem acquire_up_to_refuses_the_whole_free_span :
    (client_init 1000 16).map (fun s =>
        (client_run s [ring_op.acquire_up_to 12, ring_op.acquire_up_to 8,
          ring_op.acquire_up_to 1, ring_op.release, ring_op.release,
          ring_op.acquire_up_to 8]).ring_buf)
      = some ⟨1000, 1008, 1016, 1017⟩ ∧
    aws_ring_buffer_acquire_up_to ⟨1000, 1008, 1016, 1017⟩ 8 aws_byte_buf_zero
      = ⟨op_status.AWS_OP_ERR aws_error.AWS_ERROR_NO_AVAILABLE_BUFFERS,
          ⟨1000, 1008, 1016, 1017⟩, aws_byte_buf_zero⟩ := by
  decide

/-- C6 fails on the code: with `head` at offset 8 and `tail` at offset 16 of a 16-byte ring
buffer, `aws_ring_buffer_acquire` of 7 bytes succeeds at offset 8 while
`aws_ring_buffer_acquire_up_to` of 7 bytes fails with `AWS_ERROR_NO_AVAILABLE_BUFFERS`. -/
theorem acquire_up_to_fails_where_acquire_succeeds :
    cursors_in_bounds ⟨1000, 1008, 1016, 1017⟩ ∧
    aws_ring_buffer_acquire ⟨1000, 1008, 1016, 1017⟩ 7 aws_byte_buf_zero
      = ⟨op_status.AWS_OP_SUCCESS, ⟨1000, 1015, 1016, 1017⟩, ⟨0, 1008, 7⟩⟩ ∧
    aws_ring_buffer_acquire_up_to ⟨1000, 1008, 1016, 1017⟩ 7 aws_byte_buf_zero
      = ⟨op_status.AWS_OP_ERR aws_error.AWS_ERROR_NO_AVAILABLE_BUFFERS,
          ⟨1000, 1008, 1016, 1017⟩, aws_byte_buf_zero⟩ := by
  decide

/-- C9 fails on the code: after `acquire 12` and its release, `head` and `tail` are both at
offset 12; a second `acquire 12` wraps, vends the 12 bytes at the start of the region and
leaves `head` at offset 12, equal to `tail`, with the buffer outstanding. -/
theorem acquire_leaves_head_on_tail :
    (client_init 1000 16).map (fun s =>
        (client_run s [ring_op.acquire 12, ring_op.release]).ring_buf)
      = some ⟨1000, 1012, 1012, 1017⟩ ∧
    aws_ring_buffer_acquire ⟨1000, 1012, 1012, 1017⟩ 12 aws_byte_buf_zero
      = ⟨op_status.AWS_OP_SUCCESS, ⟨1000, 1012, 1012, 1017⟩, ⟨0, 1000, 12⟩⟩ := by
  decide

/-! ## Ownership check, release and the bounds of the cursors -/

/-- C11: for every buffer and every ring buffer state,
`aws_ring_buffer_buf_belongs_to_pool` is true exactly when
`allocation ≤ buf.buffer` and `buf.buffer + buf.capacity ≤ allocation_end`.  The function
receives the ring buffer read-only and returns nothing but the boolean, so it changes no
field of the ring buffer. -/
theorem belongs_to_pool_iff_inside_region (ring_buffer : aws_ring_buffer)
    (buf : aws_byte_buf) :
    aws_ring_buffer_buf_belongs_to_pool ring_buffer buf = true ↔
      ring_buffer.allocation ≤ buf.buffer ∧
        buf.buffer + buf.capacity ≤ ring_buffer.allocation_end := by
  simp only [aws_ring_buffer_buf_belongs_to_pool, s_buf_belongs_to_pool, Bool.and_eq_true,
    decide_eq_true_eq, ge_iff_le]

/-- C13: `aws_ring_buffer_release` sets `tail` to `buf.buffer + buf.capacity` and leaves
`head`, `allocation` and `allocation_end` as they were; this holds for every buffer, in
particular for one that the ring buffer vended. -/
theorem release_sets_tail_and_nothing_else (ring_buffer : aws_ring_buffer)
    (buf : aws_byte_buf) :
    (aws_ring_buffer_release ring_buffer buf).tail = buf.buffer + buf.capacity ∧
    (aws_ring_buffer_release ring_buffer buf).head = ring_buffer.head ∧
    (aws_ring_buffer_release ring_buffer buf).allocation = ring_buffer.allocation ∧
    (aws_ring_buffer_release ring_buffer buf).allocation_end
      = ring_buffer.allocation_end :=
  ⟨rfl, rfl, rfl, rfl⟩

/-- A call of `aws_ring_buffer_acquire` keeps the cursors inside the region. -/
theorem acquire_keeps_cursors_in_bounds (rb : aws_ring_buffer) (n : Nat)
    (dest : aws_byte_buf) (hb : cursors_in_bounds rb) :
    cursors_in_bounds (aws_ring_buffer_acquire rb n dest).ring_buf := by
  obtain ⟨h1, h2, h3, h4⟩ := hb
  unfold cursors_in_bounds
  rcases acquire_cases rb n dest with
    ⟨hc, hr⟩ | ⟨hc, hr⟩ | ⟨hc, hr⟩ | ⟨hc, hr⟩ | ⟨hc, hr⟩ | ⟨hc, hr⟩ | ⟨hc, hr⟩ | ⟨hc, hr⟩ |
    ⟨hc, hr⟩
  all_goals rw [hr]
  all_goals (dsimp only; omega)

/-- A call of `aws_ring_buffer_acquire_up_to` keeps the cursors inside the region. -/
theorem acquire_up_to_keeps_cursors_in_bounds (rb : aws_ring_buffer) (n : Nat)
    (dest : aws_byte_buf) (hb : cursors_in_bounds rb) :
    cursors_in_bounds (aws_ring_buffer_acquire_up_to rb n dest).ring_buf := by
  obtain ⟨h1, h2, h3, h4⟩ := hb
  unfold cursors_in_bounds
  rcases acquire_up_to_cases rb n dest with
    ⟨hc, hr⟩ | ⟨hc, hr⟩ | ⟨hc, hr⟩ | ⟨hc, hr⟩ | ⟨hc, hr⟩ | ⟨hc, hr⟩ | ⟨hc, hr⟩ | ⟨hc, hr⟩ |
    ⟨hc, hr⟩ | ⟨hc, hr⟩ | ⟨hc, hr⟩ | ⟨hc, hr⟩ | ⟨hc, hr⟩
  all_goals rw [hr]
  all_goals (dsimp only; omega)

/-- Releasing a buffer that passes `s_buf_belongs_to_pool` keeps the cursors inside the
region. -/
theorem release_keeps_cursors_in_bounds (rb : aws_ring_buffer) (buf : aws_byte_buf)
    (hb : cursors_in_bounds rb) (hp : s_buf_belongs_to_pool rb buf = true) :
    cursors_in_bounds (aws_ring_buffer_release rb buf) := by
  obtain ⟨h1, h2, h3, h4⟩ := hb
  simp only [s_buf_belongs_to_pool, Bool.and_eq_true, decide_eq_true_eq] at hp
  unfold cursors_in_bounds aws_ring_buffer_release
  dsimp only
  omega

/-- C14: in every state reachable from `aws_ring_buffer_init` by calls of
`aws_ring_buffer_acquire` and `aws_ring_buffer_acquire_up_to` and by releases of buffers
that satisfy the pool check, `allocation ≤ head ≤ allocation_end` and
`allocation ≤ tail ≤ allocation_end`. -/
theorem cursors_stay_in_bounds (mem size : Nat) (rb : aws_ring_buffer)
    (h : reachable_from_init mem size rb) : cursors_in_bounds rb := by
  induction h with
  | init rb0 h0 =>
    unfold aws_ring_buffer_init at h0
    by_cases hm : mem = 0
    · rw [if_pos hm] at h0
      exact absurd h0 (by simp)
    · rw [if_neg hm] at h0
      have h1 := Option.some.inj h0
      subst h1
      unfold cursors_in_bounds
      dsimp only
      omega
  | acquire rb0 n dest _ ih => exact acquire_keeps_cursors_in_bounds rb0 n dest ih
  | acquire_up_to rb0 n dest _ ih => exact acquire_up_to_keeps_cursors_in_bounds rb0 n dest ih
  | release rb0 buf _ hp ih => exact release_keeps_cursors_in_bounds rb0 buf ih hp

/-- Witness for C14: the state after `acquire 12`, `acquire 4` and the release of the
12-byte buffer on a 16-byte ring buffer is reachable, and its cursors are in bounds. -/
theorem cursors_stay_in_bounds_witness :
    reachable_from_init 1000 16
      (aws_ring_buffer_release
        (aws_ring_buffer_acquire
          (aws_ring_buffer_acquire ⟨1000, 1000, 1000, 1017⟩ 12 aws_byte_buf_zero).ring_buf
          4 aws_byte_buf_zero).ring_buf
        ⟨0, 1000, 12⟩) ∧
    cursors_in_bounds
      (aws_ring_buffer_release
        (aws_ring_buffer_acquire
          (aws_ring_buffer_acquire ⟨1000, 1000, 1000, 1017⟩ 12 aws_byte_buf_zero).ring_buf
          4 aws_byte_buf_zero).ring_buf
        ⟨0, 1000, 12⟩) :=
  ⟨reachable_from_init.release _ _
      (reachable_from_init.acquire _ _ _
        (reachable_from_init.acquire _ _ _ (reachable_from_init.init _ (by decide))))
      (by decide),
    cursors_stay_in_bounds 1000 16 _
      (reachable_from_init.release _ _
        (reachable_from_init.acquire _ _ _
          (reachable_from_init.acquire _ _ _ (reachable_from_init.init _ (by decide))))
        (by decide))⟩

/-! ## Geometry of `aws_ring_buffer_acquire` in its three cases -/

/-- C15: empty-case geometry.  In a state with `head = tail`, for every requested size `n`
with `1 ≤ n ≤ allocation_end - allocation`, `aws_ring_buffer_acquire` succeeds with a
buffer of capacity `n` and leaves `tail` unchanged; if `allocation_end - head ≥ n` the
buffer starts at the old `head` and `head` advances by `n`, otherwise the buffer starts at
`allocation` and `head` becomes `allocation + n`.  On a 16-byte ring buffer, with a release
after each acquire, the sizes 4, 8, 4, 8, 8 are vended at offsets 0, 4, 12, 0, 8 (test
`s_test_1_to_1_acquire_release_wraps`). -/
theorem empty_case_geometry (ring_buf : aws_ring_buffer) (n : Nat) (dest : aws_byte_buf)
    (he : ring_buf.head = ring_buf.tail) (h1 : 1 ≤ n)
    (h2 : n ≤ ring_buf.allocation_end - ring_buf.allocation) :
    ((aws_ring_buffer_acquire ring_buf n dest).status = op_status.AWS_OP_SUCCESS ∧
      (aws_ring_buffer_acquire ring_buf n dest).dest.capacity = n ∧
      (aws_ring_buffer_acquire ring_buf n dest).ring_buf.tail = ring_buf.tail ∧
      (ring_buf.allocation_end - ring_buf.head ≥ n →
        (aws_ring_buffer_acquire ring_buf n dest).dest.buffer = ring_buf.head ∧
        (aws_ring_buffer_acquire ring_buf n dest).ring_buf.head = ring_buf.head + n) ∧
      (ring_buf.allocation_end - ring_buf.head < n →
        (aws_ring_buffer_acquire ring_buf n dest).dest.buffer = ring_buf.allocation ∧
        (aws_ring_buffer_acquire ring_buf n dest).ring_buf.head
          = ring_buf.allocation + n)) ∧
    (client_init 1000 16).map (fun s =>
        client_log s [ring_op.acquire 4, ring_op.release, ring_op.acquire 8, ring_op.release,
          ring_op.acquire 4, ring_op.release, ring_op.acquire 8, ring_op.release,
          ring_op.acquire 8, ring_op.release])
      = some [(op_status.AWS_OP_SUCCESS, ⟨0, 1000, 4⟩),
          (op_status.AWS_OP_SUCCESS, ⟨0, 1004, 8⟩),
          (op_status.AWS_OP_SUCCESS, ⟨0, 1012, 4⟩),
          (op_status.AWS_OP_SUCCESS, ⟨0, 1000, 8⟩),
          (op_status.AWS_OP_SUCCESS, ⟨0, 1008, 8⟩)] := by
  refine ⟨?_, by decide⟩
  rcases acquire_cases ring_buf n dest with
    ⟨hc, hr⟩ | ⟨hc, hr⟩ | ⟨hc, hr⟩ | ⟨hc, hr⟩ | ⟨hc, hr⟩ | ⟨hc, hr⟩ | ⟨hc, hr⟩ | ⟨hc, hr⟩ |
    ⟨hc, hr⟩
  all_goals first
    | (exfalso; omega)
    | (rw [hr]
       refine ⟨rfl, rfl, rfl, ?_, ?_⟩ <;> intro h <;> first
         | exact ⟨rfl, rfl⟩
         | (exfalso; omega))

/-- Witness for C15: with `head = tail` at offset 16 of the 16-byte ring buffer, a request
for 8 bytes does not fit ahead of `head` and is vended at the start of the region. -/
theorem empty_case_geometry_witness :
    (aws_ring_buffer_acquire ⟨1000, 1016, 1016, 1017⟩ 8 aws_byte_buf_zero).status
      = op_status.AWS_OP_SUCCESS ∧
    (aws_ring_buffer_acquire ⟨1000, 1016, 1016, 1017⟩ 8 aws_byte_buf_zero).dest
      = ⟨0, 1000, 8⟩ ∧
    (aws_ring_buffer_acquire ⟨1000, 1016, 1016, 1017⟩ 8 aws_byte_buf_zero).ring_buf
      = ⟨1000, 1008, 1016, 1017⟩ :=
  have h := (empty_case_geometry ⟨1000, 1016, 1016, 1017⟩ 8 aws_byte_buf_zero
    (by decide) (by decide) (by decide)).1
  ⟨h.1, by decide, by decide⟩

/-- C16: single-wrap geometry.  In a state with `head < tail`, for every requested size
`n ≥ 1`, `aws_ring_buffer_acquire` succeeds exactly when `tail - head - 1 ≥ n`; on success
the buffer starts at the old `head` with capacity `n`, and `head` advances by `n` and stays
strictly below `tail`; otherwise the call fails with `AWS_ERROR_NO_AVAILABLE_BUFFERS`,
vends nothing (the destination is not written) and leaves `head` and `tail` unchanged.  In
the test `s_test_acquire_tail_always_chases_head`, with `head` at offset 8 and `tail` at
offset 16, a request for 8 bytes fails and a request for 7 bytes succeeds at offset 8. -/
theorem single_wrap_geometry (ring_buf : aws_ring_buffer) (n : Nat) (dest : aws_byte_buf)
    (hlt : ring_buf.head < ring_buf.tail) (h1 : 1 ≤ n) :
    (((aws_ring_buffer_acquire ring_buf n dest).status = op_status.AWS_OP_SUCCESS ↔
        ring_buf.tail - ring_buf.head - 1 ≥ n) ∧
      ((aws_ring_buffer_acquire ring_buf n dest).status = op_status.AWS_OP_SUCCESS →
        (aws_ring_buffer_acquire ring_buf n dest).dest.buffer = ring_buf.head ∧
        (aws_ring_buffer_acquire ring_buf n dest).dest.capacity = n ∧
        (aws_ring_buffer_acquire ring_buf n dest).ring_buf.head = ring_buf.head + n ∧
        (aws_ring_buffer_acquire ring_buf n dest).ring_buf.head
          < (aws_ring_buffer_acquire ring_buf n dest).ring_buf.tail) ∧
      ((aws_ring_buffer_acquire ring_buf n dest).status ≠ op_status.AWS_OP_SUCCESS →
        (aws_ring_buffer_acquire ring_buf n dest).status
          = op_status.AWS_OP_ERR aws_error.AWS_ERROR_NO_AVAILABLE_BUFFERS ∧
        (aws_ring_buffer_acquire ring_buf n dest).dest = dest ∧
        (aws_ring_buffer_acquire ring_buf n dest).ring_buf.head = ring_buf.head ∧
        (aws_ring_buffer_acquire ring_buf n dest).ring_buf.tail = ring_buf.tail)) ∧
    ((client_init 1000 16).map (fun s =>
        (client_run s [ring_op.acquire 12, ring_op.acquire 4, ring_op.acquire 1,
          ring_op.release, ring_op.acquire 8, ring_op.release]).ring_buf)
      = some ⟨1000, 1008, 1016, 1017⟩ ∧
    aws_ring_buffer_acquire ⟨1000, 1008, 1016, 1017⟩ 8 aws_byte_buf_zero
      = ⟨op_status.AWS_OP_ERR aws_error.AWS_ERROR_NO_AVAILABLE_BUFFERS,
          ⟨1000, 1008, 1016, 1017⟩, aws_byte_buf_zero⟩ ∧
    aws_ring_buffer_acquire ⟨1000, 1008, 1016, 1017⟩ 7 aws_byte_buf_zero
      = ⟨op_status.AWS_OP_SUCCESS, ⟨1000, 1015, 1016, 1017⟩, ⟨0, 1008, 7⟩⟩) := by
  refine ⟨?_, by decide⟩
  rcases acquire_cases ring_buf n dest with
    ⟨hc, hr⟩ | ⟨hc, hr⟩ | ⟨hc, hr⟩ | ⟨hc, hr⟩ | ⟨hc, hr⟩ | ⟨hc, hr⟩ | ⟨hc, hr⟩ | ⟨hc, hr⟩ |
    ⟨hc, hr⟩
  all_goals first
    | (exfalso; omega)
    | (rw [hr]
       refine ⟨⟨fun _ => by omega, fun _ => rfl⟩, fun _ => ⟨rfl, rfl, rfl, ?_⟩,
         fun h => absurd rfl h⟩
       dsimp only
       omega)
    | (rw [hr]
       refine ⟨⟨fun h => ?_, fun h => ?_⟩, fun h => ?_, fun _ => ⟨rfl, rfl, rfl, rfl⟩⟩
       · simp only [reduceCtorEq] at h
       · exfalso; omega
       · simp only [reduceCtorEq] at h)

/-- Witness for C16: with `head` at offset 8 and `tail` at offset 16, exactly the requests
of at most 7 bytes succeed; the 7-byte request is vended at offset 8. -/
theorem single_wrap_geometry_witness :
    (1008 < 1016) ∧
    ((aws_ring_buffer_acquire ⟨1000, 1008, 1016, 1017⟩ 7 aws_byte_buf_zero).status
        = op_status.AWS_OP_SUCCESS ↔ 1016 - 1008 - 1 ≥ 7) ∧
    (aws_ring_buffer_acquire ⟨1000, 1008, 1016, 1017⟩ 7 aws_byte_buf_zero).status
      = op_status.AWS_OP_SUCCESS :=
  ⟨by decide,
    (single_wrap_geometry ⟨1000, 1008, 1016, 1017⟩ 7 aws_byte_buf_zero
      (by decide) (by decide)).1.1,
    by decide⟩

/-- C17: multi-wrap geometry as the tests exercise it.  In a state with `tail < head`, for
every requested size `n ≥ 1`, `aws_ring_buffer_acquire` vends `n` bytes at `head` and
advances `head` by `n` when `n ≤ (allocation_end - head) - 1`; otherwise it vends `n` bytes
at `allocation` and sets `head = allocation + n` when `n ≤ (tail - allocation) - 1`;
otherwise it fails with `AWS_ERROR_NO_AVAILABLE_BUFFERS` and leaves `head` and `tail`
unchanged.  On a 16-byte ring buffer: with 12 and then 4 bytes outstanding a request for
1 byte fails, and once the 12-byte buffer is released a request for 8 bytes succeeds at
offset 0; with `head` at offset 15 and `tail` at offset 8 a request for 8 bytes fails and
a request for 7 bytes succeeds at offset 0. -/
theorem multi_wrap_geometry (ring_buf : aws_ring_buffer) (n : Nat) (dest : aws_byte_buf)
    (hlt : ring_buf.tail < ring_buf.head) (h1 : 1 ≤ n) :
    ((n ≤ (ring_buf.allocation_end - ring_buf.head) - 1 →
        (aws_ring_buffer_acquire ring_buf n dest).status = op_status.AWS_OP_SUCCESS ∧
        (aws_ring_buffer_acquire ring_buf n dest).dest.buffer = ring_buf.head ∧
        (aws_ring_buffer_acquire ring_buf n dest).dest.capacity = n ∧
        (aws_ring_buffer_acquire ring_buf n dest).ring_buf.head = ring_buf.head + n) ∧
      (¬ n ≤ (ring_buf.allocation_end - ring_buf.head) - 1 →
        n ≤ (ring_buf.tail - ring_buf.allocation) - 1 →
        (aws_ring_buffer_acquire ring_buf n dest).status = op_status.AWS_OP_SUCCESS ∧
        (aws_ring_buffer_acquire ring_buf n dest).dest.buffer = ring_buf.allocation ∧
        (aws_ring_buffer_acquire ring_buf n dest).dest.capacity = n ∧
        (aws_ring_buffer_acquire ring_buf n dest).ring_buf.head
          = ring_buf.allocation + n) ∧
      (¬ n ≤ (ring_buf.allocation_end - ring_buf.head) - 1 →
        ¬ n ≤ (ring_buf.tail - ring_buf.allocation) - 1 →
        (aws_ring_buffer_acquire ring_buf n dest).status
          = op_status.AWS_OP_ERR aws_error.AWS_ERROR_NO_AVAILABLE_BUFFERS ∧
        (aws_ring_buffer_acquire ring_buf n dest).ring_buf.head = ring_buf.head ∧
        (aws_ring_buffer_acquire ring_buf n dest).ring_buf.tail = ring_buf.tail)) ∧
    ((client_init 1000 16).map (fun s =>
        client_log s [ring_op.acquire 12, ring_op.acquire 4, ring_op.acquire 1,
          ring_op.release, ring_op.acquire 8])
      = some [(op_status.AWS_OP_SUCCESS, ⟨0, 1000, 12⟩),
          (op_status.AWS_OP_SUCCESS, ⟨0, 1012, 4⟩),
          (op_status.AWS_OP_ERR aws_error.AWS_ERROR_NO_AVAILABLE_BUFFERS, aws_byte_buf_zero),
          (op_status.AWS_OP_SUCCESS, ⟨0, 1000, 8⟩)] ∧
    (client_init 1000 16).map (fun s =>
        (client_run s [ring_op.acquire 12, ring_op.acquire 4, ring_op.acquire 1,
          ring_op.release, ring_op.acquire 8, ring_op.release, ring_op.acquire 8,
          ring_op.acquire 7, ring_op.release]).ring_buf)
      = some ⟨1000, 1015, 1008, 1017⟩ ∧
    aws_ring_buffer_acquire ⟨1000, 1015, 1008, 1017⟩ 8 aws_byte_buf_zero
      = ⟨op_status.AWS_OP_ERR aws_error.AWS_ERROR_NO_AVAILABLE_BUFFERS,
          ⟨1000, 1015, 1008, 1017⟩, aws_byte_buf_zero⟩ ∧
    aws_ring_buffer_acquire ⟨1000, 1015, 1008, 1017⟩ 7 aws_byte_buf_zero
      = ⟨op_status.AWS_OP_SUCCESS, ⟨1000, 1007, 1008, 1017⟩, ⟨0, 1000, 7⟩⟩) := by
  refine ⟨?_, by decide⟩
  rcases acquire_cases ring_buf n dest with
    ⟨hc, hr⟩ | ⟨hc, hr⟩ | ⟨hc, hr⟩ | ⟨hc, hr⟩ | ⟨hc, hr⟩ | ⟨hc, hr⟩ | ⟨hc, hr⟩ | ⟨hc, hr⟩ |
    ⟨hc, hr⟩
  all_goals first
    | (exfalso; omega)
    | (rw [hr]
       refine ⟨fun ha => ?_, fun ha hb => ?_, fun ha hb => ?_⟩ <;> first
         | (exfalso; omega)
         | exact ⟨rfl, rfl, rfl, rfl⟩
         | exact ⟨rfl, rfl, rfl⟩)

/-- Witness for C17: with `head` at offset 15 and `tail` at offset 8, a request for 7 bytes
does not fit ahead of `head` and is vended at the start of the region. -/
theorem multi_wrap_geometry_witness :
    (1008 < 1015) ∧ ¬ (7 ≤ (1017 - 1015) - 1) ∧ (7 ≤ (1008 - 1000) - 1) ∧
    ((aws_ring_buffer_acquire ⟨1000, 1015, 1008, 1017⟩ 7 aws_byte_buf_zero).status
        = op_status.AWS_OP_SUCCESS ∧
      (aws_ring_buffer_acquire ⟨1000, 1015, 1008, 1017⟩ 7 aws_byte_buf_zero).dest.buffer
        = 1000 ∧
      (aws_ring_buffer_acquire ⟨1000, 1015, 1008, 1017⟩ 7 aws_byte_buf_zero).dest.capacity
        = 7 ∧
      (aws_ring_buffer_acquire ⟨1000, 1015, 1008, 1017⟩ 7 aws_byte_buf_zero).ring_buf.head
        = 1000 + 7) :=
  ⟨by decide, by decide, by decide,
    (multi_wrap_geometry ⟨1000, 1015, 1008, 1017⟩ 7 aws_byte_buf_zero
      (by decide) (by decide)).1.2.1 (by decide) (by decide)⟩

/-- C18, as amended: in a state with `tail < head` the head-side span `[head,
allocation_end)` has length `allocation_end - head` and the tail-side span
`[allocation, tail - 1)` has length `tail - allocation - 1`; for every requested size
`n ≥ 1`, `aws_ring_buffer_acquire` vends at `head` if the head-side length strictly exceeds
`n`; otherwise, if the tail-side length is at least `n`, it vends at `allocation` and sets
`head = allocation + n`; if the head-side length does not strictly exceed `n` and the
tail-side length is below `n`, it fails with `AWS_ERROR_NO_AVAILABLE_BUFFERS`. -/
theorem multi_wrap_policy_amended (ring_buf : aws_ring_buffer) (n : Nat)
    (dest : aws_byte_buf) (hlt : ring_buf.tail < ring_buf.head) (h1 : 1 ≤ n) :
    (ring_buf.allocation_end - ring_buf.head > n →
      aws_ring_buffer_acquire ring_buf n dest
        = ⟨op_status.AWS_OP_SUCCESS, { ring_buf with head := ring_buf.head + n },
            aws_byte_buf_from_empty_array ring_buf.head n⟩) ∧
    (¬ ring_buf.allocation_end - ring_buf.head > n →
      ring_buf.tail - ring_buf.allocation - 1 ≥ n →
      aws_ring_buffer_acquire ring_buf n dest
        = ⟨op_status.AWS_OP_SUCCESS, { ring_buf with head := ring_buf.allocation + n },
            aws_byte_buf_from_empty_array ring_buf.allocation n⟩) ∧
    (¬ ring_buf.allocation_end - ring_buf.head > n →
      ring_buf.tail - ring_buf.allocation - 1 < n →
      aws_ring_buffer_acquire ring_buf n dest
        = ⟨op_status.AWS_OP_ERR aws_error.AWS_ERROR_NO_AVAILABLE_BUFFERS, ring_buf,
            dest⟩) := by
  rcases acquire_cases ring_buf n dest with
    ⟨hc, hr⟩ | ⟨hc, hr⟩ | ⟨hc, hr⟩ | ⟨hc, hr⟩ | ⟨hc, hr⟩ | ⟨hc, hr⟩ | ⟨hc, hr⟩ | ⟨hc, hr⟩ |
    ⟨hc, hr⟩
  all_goals first
    | (exfalso; omega)
    | (rw [hr]
       refine ⟨fun ha => ?_, fun ha hb => ?_, fun ha hb => ?_⟩ <;> first
         | (exfalso; omega)
         | rfl)

/-- Witness for C18 as amended: with `head` at offset 15 and `tail` at offset 8 the
tail-side span has length 7, and a request for 7 bytes is vended at the start of the
region. -/
theorem multi_wrap_policy_amended_witness :
    (1008 < 1015) ∧ ¬ (1017 - 1015 > 7) ∧ (1008 - 1000 - 1 ≥ 7) ∧
    aws_ring_buffer_acquire ⟨1000, 1015, 1008, 1017⟩ 7 aws_byte_buf_zero
      = ⟨op_status.AWS_OP_SUCCESS, ⟨1000, 1000 + 7, 1008, 1017⟩,
          aws_byte_buf_from_empty_array 1000 7⟩ :=
  ⟨by decide, by decide, by decide,
    (multi_wrap_policy_amended ⟨1000, 1015, 1008, 1017⟩ 7 aws_byte_buf_zero
      (by decide) (by decide)).2.1 (by decide) (by decide)⟩

/-- C18 as worded fails on the code: with `head` at offset 15 and `tail` at offset 8 of the
16-byte ring buffer, the head-side length 2 and the tail-side length 7 do not strictly
exceed the requested 7 bytes, so the policy as worded fails, while
`aws_ring_buffer_acquire` vends the 7 bytes at the start of the region (as the test
`s_test_acquire_tail_always_chases_head` expects). -/
theorem multi_wrap_policy_as_worded_differs :
    (1008 < 1015) ∧ ¬ (1017 - 1015 > 7) ∧ ¬ (1008 - 1000 - 1 > 7) ∧
    spec_multi_wrap_acquire ⟨1000, 1015, 1008, 1017⟩ 7 aws_byte_buf_zero
      = ⟨op_status.AWS_OP_ERR aws_error.AWS_ERROR_NO_AVAILABLE_BUFFERS,
          ⟨1000, 1015, 1008, 1017⟩, aws_byte_buf_zero⟩ ∧
    aws_ring_buffer_acquire ⟨1000, 1015, 1008, 1017⟩ 7 aws_byte_buf_zero
      = ⟨op_status.AWS_OP_SUCCESS, ⟨1000, 1007, 1008, 1017⟩, ⟨0, 1000, 7⟩⟩ ∧
    aws_ring_buffer_acquire ⟨1000, 1015, 1008, 1017⟩ 7 aws_byte_buf_zero
      ≠ spec_multi_wrap_acquire ⟨1000, 1015, 1008, 1017⟩ 7 aws_byte_buf_zero := by
  decide

/-! ## Partial grants of `aws_ring_buffer_acquire_up_to` -/

/-- C20: multi-wrap partial grant.  In a state with `tail < head`, with
`hs = allocation_end - head` and `ts = tail - allocation`, for every requested size
`n ≥ 1`, `aws_ring_buffer_acquire_up_to` succeeds exactly when `max hs ts ≥ 2`, and on
success the buffer has capacity `min n (max hs ts - 1)`; in particular, when neither `hs`
nor `ts` exceeds `n`, the capacity is one less than the larger of the two.  On a 16-byte
ring buffer, after `acquire 12` at offset 0, `acquire_up_to 8` returns 4 bytes at offset
12 and a further `acquire_up_to 1` fails with `AWS_ERROR_NO_AVAILABLE_BUFFERS`. -/
theorem multi_wrap_partial_grant (ring_buf : aws_ring_buffer) (n : Nat)
    (dest : aws_byte_buf) (hlt : ring_buf.tail < ring_buf.head) (h1 : 1 ≤ n) :
    (((aws_ring_buffer_acquire_up_to ring_buf n dest).status = op_status.AWS_OP_SUCCESS ↔
        max (ring_buf.allocation_end - ring_buf.head)
          (ring_buf.tail - ring_buf.allocation) ≥ 2) ∧
      ((aws_ring_buffer_acquire_up_to ring_buf n dest).status = op_status.AWS_OP_SUCCESS →
        (aws_ring_buffer_acquire_up_to ring_buf n dest).dest.capacity
          = min n (max (ring_buf.allocation_end - ring_buf.head)
              (ring_buf.tail - ring_buf.allocation) - 1)) ∧
      ((aws_ring_buffer_acquire_up_to ring_buf n dest).status = op_status.AWS_OP_SUCCESS →
        ring_buf.allocation_end - ring_buf.head ≤ n →
        ring_buf.tail - ring_buf.allocation ≤ n →
        (aws_ring_buffer_acquire_up_to ring_buf n dest).dest.capacity
          = max (ring_buf.allocation_end - ring_buf.head)
              (ring_buf.tail - ring_buf.allocation) - 1)) ∧
    (client_init 1000 16).map (fun s =>
        client_log s [ring_op.acquire 12, ring_op.acquire_up_to 8, ring_op.acquire_up_to 1])
      = some [(op_status.AWS_OP_SUCCESS, ⟨0, 1000, 12⟩),
          (op_status.AWS_OP_SUCCESS, ⟨0, 1012, 4⟩),
          (op_status.AWS_OP_ERR aws_error.AWS_ERROR_NO_AVAILABLE_BUFFERS,
            aws_byte_buf_zero)] := by
  refine ⟨?_, by decide⟩
  rcases acquire_up_to_cases ring_buf n dest with
    ⟨hc, hr⟩ | ⟨hc, hr⟩ | ⟨hc, hr⟩ | ⟨hc, hr⟩ | ⟨hc, hr⟩ | ⟨hc, hr⟩ | ⟨hc, hr⟩ | ⟨hc, hr⟩ |
    ⟨hc, hr⟩ | ⟨hc, hr⟩ | ⟨hc, hr⟩ | ⟨hc, hr⟩ | ⟨hc, hr⟩
  all_goals first
    | (exfalso; omega)
    | (rw [hr]
       refine ⟨⟨fun _ => by omega, fun _ => rfl⟩, fun _ => ?_, fun _ _ _ => ?_⟩ <;>
         (dsimp only; omega))
    | (rw [hr]
       refine ⟨⟨fun h => ?_, fun h => ?_⟩, fun h => ?_, fun h _ _ => ?_⟩
       · simp only [reduceCtorEq] at h
       · exfalso; omega
       · simp only [reduceCtorEq] at h
       · simp only [reduceCtorEq] at h)

/-- Witness for C20: with 12 bytes outstanding at the start of the 16-byte ring buffer
(`hs = 5`, `ts = 0`), a request for up to 8 bytes is granted 4 bytes. -/
theorem multi_wrap_partial_grant_witness :
    (1000 < 1012) ∧
    (aws_ring_buffer_acquire_up_to ⟨1000, 1012, 1000, 1017⟩ 8 aws_byte_buf_zero).status
      = op_status.AWS_OP_SUCCESS ∧
    (aws_ring_buffer_acquire_up_to ⟨1000, 1012, 1000, 1017⟩ 8 aws_byte_buf_zero).dest.capacity
      = min 8 (max (1017 - 1012) (1000 - 1000) - 1) :=
  ⟨by decide, by decide,
    (multi_wrap_partial_grant ⟨1000, 1012, 1000, 1017⟩ 8 aws_byte_buf_zero
      (by decide) (by decide)).1.2.1 (by decide)⟩

/-! ## The region that `aws_ring_buffer_init` sets up -/

/-- C12 fails on the code: `aws_ring_buffer_init` for 16 bytes at address 1000 sets `head`
and `tail` to `allocation`, and sets `allocation_end` 17 bytes after `allocation`, one more
than the capacity asked for. -/
theorem init_region_is_one_byte_longer_than_capacity :
    (aws_ring_buffer_init 1000 16).map (fun rb =>
        (rb.allocation, rb.head, rb.tail, rb.allocation_end - rb.allocation))
      = some (1000, 1000, 1000, 17) := by
  decide

/-! ## Failure leaves no trace -/

/-- C24: failure is atomic.  In every state and for every requested size, whenever
`aws_ring_buffer_acquire` or `aws_ring_buffer_acquire_up_to` returns an error, the ring
buffer (`head`, `tail`, `allocation`, `allocation_end`) is unchanged and the caller's
destination buffer is not written. -/
theorem failed_acquire_changes_nothing (ring_buf : aws_ring_buffer) (requested_size : Nat)
    (dest : aws_byte_buf) (e : aws_error) :
    ((aws_ring_buffer_acquire ring_buf requested_size dest).status = op_status.AWS_OP_ERR e →
      (aws_ring_buffer_acquire ring_buf requested_size dest).ring_buf = ring_buf ∧
      (aws_ring_buffer_acquire ring_buf requested_size dest).dest = dest) ∧
    ((aws_ring_buffer_acquire_up_to ring_buf requested_size dest).status
        = op_status.AWS_OP_ERR e →
      (aws_ring_buffer_acquire_up_to ring_buf requested_size dest).ring_buf = ring_buf ∧
      (aws_ring_buffer_acquire_up_to ring_buf requested_size dest).dest = dest) := by
  constructor
  · intro hs
    rcases acquire_cases ring_buf requested_size dest with
      ⟨hc, hr⟩ | ⟨hc, hr⟩ | ⟨hc, hr⟩ | ⟨hc, hr⟩ | ⟨hc, hr⟩ | ⟨hc, hr⟩ | ⟨hc, hr⟩ | ⟨hc, hr⟩ |
      ⟨hc, hr⟩
    all_goals rw [hr] at hs ⊢
    all_goals first
      | exact ⟨rfl, rfl⟩
      | simp only [reduceCtorEq] at hs
  · intro hs
    rcases acquire_up_to_cases ring_buf requested_size dest with
      ⟨hc, hr⟩ | ⟨hc, hr⟩ | ⟨hc, hr⟩ | ⟨hc, hr⟩ | ⟨hc, hr⟩ | ⟨hc, hr⟩ | ⟨hc, hr⟩ | ⟨hc, hr⟩ |
      ⟨hc, hr⟩ | ⟨hc, hr⟩ | ⟨hc, hr⟩ | ⟨hc, hr⟩ | ⟨hc, hr⟩
    all_goals rw [hr] at hs ⊢
    all_goals first
      | exact ⟨rfl, rfl⟩
      | simp only [reduceCtorEq] at hs

/-- Witness for C24: with 16 bytes outstanding on the 16-byte ring buffer a request for one
byte fails, and the ring buffer and the destination are as before. -/
theorem failed_acquire_changes_nothing_witness :
    (aws_ring_buffer_acquire ⟨1000, 1016, 1000, 1017⟩ 1 ⟨3, 5, 7⟩).status
      = op_status.AWS_OP_ERR aws_error.AWS_ERROR_NO_AVAILABLE_BUFFERS ∧
    ((aws_ring_buffer_acquire ⟨1000, 1016, 1000, 1017⟩ 1 ⟨3, 5, 7⟩).ring_buf
        = ⟨1000, 1016, 1000, 1017⟩ ∧
      (aws_ring_buffer_acquire ⟨1000, 1016, 1000, 1017⟩ 1 ⟨3, 5, 7⟩).dest = ⟨3, 5, 7⟩) :=
  ⟨by decide,
    (failed_acquire_changes_nothing ⟨1000, 1016, 1000, 1017⟩ 1 ⟨3, 5, 7⟩
      aws_error.AWS_ERROR_NO_AVAILABLE_BUFFERS).1 (by decide)⟩

/-! ## Transitions between the three cases -/

/-- The case is `EMPTY` exactly when `head = tail`. -/
theorem ring_state_of_eq_empty (rb : aws_ring_buffer) :
    ring_state_of rb = ring_state.EMPTY ↔ rb.head = rb.tail := by
  unfold ring_state_of
  by_cases h1 : rb.head = rb.tail
  · rw [if_pos h1]
    exact ⟨fun _ => h1, fun _ => rfl⟩
  · rw [if_neg h1]
    by_cases h2 : rb.tail > rb.head
    · rw [if_pos h2]
      exact ⟨fun h => by simp only [reduceCtorEq] at h, fun h => absurd h h1⟩
    · rw [if_neg h2]
      exact ⟨fun h => by simp only [reduceCtorEq] at h, fun h => absurd h h1⟩

/-- The case is `SINGLE_WRAP` exactly when `head < tail`. -/
theorem ring_state_of_eq_single_wrap (rb : aws_ring_buffer) :
    ring_state_of rb = ring_state.SINGLE_WRAP ↔ rb.head < rb.tail := by
  unfold ring_state_of
  by_cases h1 : rb.head = rb.tail
  · simp only [if_pos h1, reduceCtorEq, false_iff]
    omega
  · by_cases h2 : rb.tail > rb.head
    · simp only [if_neg h1, if_pos h2, true_iff]
      exact h2
    · simp only [if_neg h1, if_neg h2, reduceCtorEq, false_iff]
      exact h2

/-- The case is `MULTI_WRAP` exactly when `tail < head`. -/
theorem ring_state_of_eq_multi_wrap (rb : aws_ring_buffer) :
    ring_state_of rb = ring_state.MULTI_WRAP ↔ rb.tail < rb.head := by
  unfold ring_state_of
  by_cases h1 : rb.head = rb.tail
  · simp only [if_pos h1, reduceCtorEq, false_iff]
    omega
  · by_cases h2 : rb.tail > rb.head
    · simp only [if_neg h1, if_pos h2, reduceCtorEq, false_iff]
      omega
    · simp only [if_neg h1, if_neg h2, true_iff]
      omega

/-- C22, as amended: with the state `EMPTY` when `head = tail`, `SINGLE_WRAP` when
`tail > head` and `MULTI_WRAP` when `tail < head`, every successful
`aws_ring_buffer_acquire` or `aws_ring_buffer_acquire_up_to` vends its buffer at the old
`head` or at `allocation`, and: from `SINGLE_WRAP` the state after the call is
`SINGLE_WRAP`; from `EMPTY` or `MULTI_WRAP` it is `MULTI_WRAP` when the buffer is vended at
`head`; from `MULTI_WRAP` it is `SINGLE_WRAP` when the buffer is vended at `allocation`
instead; from `EMPTY` it is `SINGLE_WRAP` when the buffer is vended at `allocation`
instead and ends below `tail`. -/
theorem acquire_state_transitions (ring_buf : aws_ring_buffer) (n : Nat)
    (dest : aws_byte_buf) (r : acquire_result)
    (hr : r = aws_ring_buffer_acquire ring_buf n dest ∨
      r = aws_ring_buffer_acquire_up_to ring_buf n dest)
    (hs : r.status = op_status.AWS_OP_SUCCESS) :
    (r.dest.buffer = ring_buf.head ∨ r.dest.buffer = ring_buf.allocation) ∧
    (ring_state_of ring_buf = ring_state.SINGLE_WRAP →
      ring_state_of r.ring_buf = ring_state.SINGLE_WRAP) ∧
    (ring_state_of ring_buf = ring_state.EMPTY → r.dest.buffer = ring_buf.head →
      ring_state_of r.ring_buf = ring_state.MULTI_WRAP) ∧
    (ring_state_of ring_buf = ring_state.MULTI_WRAP → r.dest.buffer = ring_buf.head →
      ring_state_of r.ring_buf = ring_state.MULTI_WRAP) ∧
    (ring_state_of ring_buf = ring_state.MULTI_WRAP → r.dest.buffer ≠ ring_buf.head →
      ring_state_of r.ring_buf = ring_state.SINGLE_WRAP) ∧
    (ring_state_of ring_buf = ring_state.EMPTY → r.dest.buffer ≠ ring_buf.head →
      r.dest.buffer + r.dest.capacity < ring_buf.tail →
      ring_state_of r.ring_buf = ring_state.SINGLE_WRAP) := by
  simp only [ring_state_of_eq_empty, ring_state_of_eq_single_wrap,
    ring_state_of_eq_multi_wrap]
  rcases hr with hr | hr
  · subst hr
    rcases acquire_cases ring_buf n dest with
      ⟨hc, hr⟩ | ⟨hc, hr⟩ | ⟨hc, hr⟩ | ⟨hc, hr⟩ | ⟨hc, hr⟩ | ⟨hc, hr⟩ | ⟨hc, hr⟩ | ⟨hc, hr⟩ |
      ⟨hc, hr⟩
    all_goals rw [hr] at hs ⊢
    all_goals first
      | (dsimp only; omega)
      | simp only [reduceCtorEq] at hs
  · subst hr
    rcases acquire_up_to_cases ring_buf n dest with
      ⟨hc, hr⟩ | ⟨hc, hr⟩ | ⟨hc, hr⟩ | ⟨hc, hr⟩ | ⟨hc, hr⟩ | ⟨hc, hr⟩ | ⟨hc, hr⟩ | ⟨hc, hr⟩ |
      ⟨hc, hr⟩ | ⟨hc, hr⟩ | ⟨hc, hr⟩ | ⟨hc, hr⟩ | ⟨hc, hr⟩
    all_goals rw [hr] at hs ⊢
    all_goals first
      | (dsimp only; omega)
      | simp only [reduceCtorEq] at hs

/-- Witness for C22 as amended: with `head` at offset 16 and `tail` at offset 12 the state
is `MULTI_WRAP`; a request for 8 bytes is vended at `allocation`, and the state after the
call is `SINGLE_WRAP`. -/
theorem acquire_state_transitions_witness :
    ring_state_of ⟨1000, 1016, 1012, 1017⟩ = ring_state.MULTI_WRAP ∧
    (aws_ring_buffer_acquire ⟨1000, 1016, 1012, 1017⟩ 8 aws_byte_buf_zero).dest.buffer
      ≠ 1016 ∧
    ring_state_of (aws_ring_buffer_acquire ⟨1000, 1016, 1012, 1017⟩ 8
      aws_byte_buf_zero).ring_buf = ring_state.SINGLE_WRAP :=
  ⟨by decide, by decide,
    (acquire_state_transitions ⟨1000, 1016, 1012, 1017⟩ 8 aws_byte_buf_zero
      (aws_ring_buffer_acquire ⟨1000, 1016, 1012, 1017⟩ 8 aws_byte_buf_zero)
      (Or.inl rfl) (by decide)).2.2.2.2.1 (by decide) (by decide)⟩

/-- C22 as stated fails on the code: the first `acquire 4` on the fresh 16-byte ring buffer
succeeds from `EMPTY` and leaves `tail < head`, which is `MULTI_WRAP`; and with `head` at
offset 16 and `tail` at offset 12 (`MULTI_WRAP`) a successful `acquire 8` wraps to the
start of the region and leaves `head < tail`, which is `SINGLE_WRAP`. -/
theorem acquire_leaves_the_claimed_states :
    ring_state_of ⟨1000, 1000, 1000, 1017⟩ = ring_state.EMPTY ∧
    (aws_ring_buffer_acquire ⟨1000, 1000, 1000, 1017⟩ 4 aws_byte_buf_zero).status
      = op_status.AWS_OP_SUCCESS ∧
    ring_state_of (aws_ring_buffer_acquire ⟨1000, 1000, 1000, 1017⟩ 4
      aws_byte_buf_zero).ring_buf = ring_state.MULTI_WRAP ∧
    ring_state_of ⟨1000, 1016, 1012, 1017⟩ = ring_state.MULTI_WRAP ∧
    (aws_ring_buffer_acquire ⟨1000, 1016, 1012, 1017⟩ 8 aws_byte_buf_zero).status
      = op_status.AWS_OP_SUCCESS ∧
    ring_state_of (aws_ring_buffer_acquire ⟨1000, 1016, 1012, 1017⟩ 8
      aws_byte_buf_zero).ring_buf = ring_state.SINGLE_WRAP := by
  decide

/-! ## Further departures from the contract -/

/-- C21 fails on the code: after `acquire 4`, `acquire 9` and the release of the 4-byte
buffer on the 16-byte ring buffer, `head` is at offset 13 and `tail` at offset 4, so
`allocation_end - head` and `tail - allocation` are both 4; `acquire_up_to 8` then grants
3 bytes, fewer than asked, and vends them at the start of the region instead of at
`head`. -/
theorem acquire_up_to_breaks_the_tie_towards_tail :
    (client_init 1000 16).map (fun s =>
        (client_run s [ring_op.acquire 4, ring_op.acquire 9, ring_op.release]).ring_buf)
      = some ⟨1000, 1013, 1004, 1017⟩ ∧
    (1017 - 1013 ≥ 1004 - 1000) ∧
    aws_ring_buffer_acquire_up_to ⟨1000, 1013, 1004, 1017⟩ 8 aws_byte_buf_zero
      = ⟨op_status.AWS_OP_SUCCESS, ⟨1000, 1003, 1004, 1017⟩, ⟨0, 1000, 3⟩⟩ := by
  decide

/-- C23 fails on the code: on the ring buffer built for 16 bytes at address 1000 (bytes
1000 to 1015), `acquire 4`, its release and `acquire 13` vend the 13 bytes from offset 4,
which end at address 1017, and `acquire_up_to 20` on the fresh ring buffer vends 17 bytes
from offset 0; both buffers run past `allocation + 16`. -/
theorem vended_buffer_runs_past_the_allocation :
    (client_init 1000 16).map (fun s =>
        client_log s [ring_op.acquire 4, ring_op.release, ring_op.acquire 13])
      = some [(op_status.AWS_OP_SUCCESS, ⟨0, 1000, 4⟩),
          (op_status.AWS_OP_SUCCESS, ⟨0, 1004, 13⟩)] ∧
    ¬ (1004 + 13 ≤ 1000 + 16) ∧
    (client_init 1000 16).map (fun s => client_log s [ring_op.acquire_up_to 20])
      = some [(op_status.AWS_OP_SUCCESS, ⟨0, 1000, 17⟩)] ∧
    ¬ (1000 + 17 ≤ 1000 + 16) := by
  decide

end RingBuffer
